import Mathlib

/-!
Verification of the ESP8266 I2S DMA driver (cores/esp8266/core_esp8266_i2s.c).

The driver keeps a pool of `SLC_BUF_CNT = 8` DMA buffers of `SLC_BUF_LEN = 64`
32-bit words each, a hand-off queue `i2s_slc_queue` (a static array of
`SLC_BUF_CNT - 1 = 7` slots plus a `uint8_t` length counter `i2s_slc_queue_len`)
holding the identities of drained buffers, a write cursor
(`i2s_curr_slc_buf`, `i2s_curr_slc_buf_pos`), and a rate state
(`_i2s_sample_rate` plus the two hardware divider fields).

Embedding conventions:

* The hand-off queue is represented by the list of its live entries
  `i2s_slc_queue[0 .. i2s_slc_queue_len)`, front of the C array = head of the
  list.  `i2s_slc_queue_next_item` shifts the array left by one and decrements
  the counter, which on the live window is exactly `List.tail`; pushing writes
  at index `i2s_slc_queue_len` and increments the counter, which is appending.
* Buffer identities (the C `uint32_t *` / `buf_ptr` values) are modelled as
  natural numbers; buffer memory is a function from identity and word index to
  the stored 32-bit word.
* The `uint8_t` length counter is additionally modelled on its own, with its
  exact mod-256 wrap-around semantics, because `i2s_slc_queue_next_item`
  decrements it without an emptiness check; the list-level model is only
  adequate on the guarded call sites, and the counter-level model makes the
  unguarded underflow visible.
* Hardware register writes (`SLCIC`, `SLCIE`, `I2SC`, ...), the interrupt
  mask/unmask pair and the user callback have no observable effect on the
  queue, cursor or buffer state and are omitted; `i2s_write_sample`'s busy
  wait loop never terminates in a sequential model when the queue is empty,
  so the blocking writer returns `Option` with `none` for that case.
-/

/-- Number of buffers in the I2S circular buffer (`SLC_BUF_CNT`). -/
def SLC_BUF_CNT : Nat := 8

/-- Length of one buffer, in 32-bit words (`SLC_BUF_LEN`). -/
def SLC_BUF_LEN : Nat := 64

/-- The mutable driver state shared between the ISR and the producer:
the live entries of `i2s_slc_queue` (head = front, i.e. `i2s_slc_queue[0]`),
the write cursor `i2s_curr_slc_buf` (`none` models the C `NULL`) and
`i2s_curr_slc_buf_pos`, and the contents of the DMA buffers, addressed by
buffer identity and word index. -/
structure I2SState where
  queue : List Nat
  curr_buf : Option Nat
  buf_pos : Nat
  mem : Nat → Nat → Nat

/-- The pop primitive `i2s_slc_queue_next_item`: returns `i2s_slc_queue[0]`
and shifts the remaining live entries left (`List.tail` on the live window).
The C function has no emptiness check; on the live-entry list an empty pop
leaves the list empty, while the `uint8_t` counter underflows — that counter
effect is modelled separately by `i2s_slc_queue_next_item_len`. -/
def i2s_slc_queue_next_item (s : I2SState) : Nat × I2SState :=
  (s.queue.headD 0, { s with queue := s.queue.tail })

/-- The completion handler `i2s_slc_isr` on the RX-EOF path, for the finished
descriptor's buffer identity `finished`: zero the buffer
(`ets_memset(buf_ptr, 0x00, SLC_BUF_LEN * 4)`, i.e. words `0 .. SLC_BUF_LEN`),
then, if `i2s_slc_queue_len >= SLC_BUF_CNT-1`, pop once to free space, and
finally append the identity (`i2s_slc_queue[i2s_slc_queue_len++] = buf_ptr`).
The interrupt re-arm and the optional user callback do not touch this state. -/
def i2s_slc_isr (finished : Nat) (s : I2SState) : I2SState :=
  let s0 : I2SState :=
    { s with mem := fun b i => if b = finished ∧ i < SLC_BUF_LEN then 0 else s.mem b i }
  let s1 : I2SState :=
    if SLC_BUF_CNT - 1 ≤ s0.queue.length then (i2s_slc_queue_next_item s0).2 else s0
  { s1 with queue := s1.queue ++ [finished] }

/-- `i2s_is_full`: cursor exhausted or unset, and the queue empty. -/
def i2s_is_full (s : I2SState) : Bool :=
  (s.buf_pos == SLC_BUF_LEN || s.curr_buf == none) && (s.queue.length == 0)

/-- `i2s_is_empty`: `i2s_slc_queue_len >= SLC_BUF_CNT - 1`. -/
def i2s_is_empty (s : I2SState) : Bool :=
  SLC_BUF_CNT - 1 ≤ s.queue.length

/-- Writing one sample at the cursor:
`i2s_curr_slc_buf[i2s_curr_slc_buf_pos++] = sample`.  Callers only reach this
with `curr_buf` set; `getD 0` is the (unreachable) `NULL` deref. -/
def writeCursor (sample : Nat) (s : I2SState) : I2SState :=
  { s with
    mem := fun b i =>
      if b = s.curr_buf.getD 0 ∧ i = s.buf_pos then sample else s.mem b i,
    buf_pos := s.buf_pos + 1 }

/-- The blocking writer `i2s_write_sample`.  If the cursor is exhausted
(`pos == SLC_BUF_LEN`) or unset (`NULL`): when the queue is empty the C code
busy-waits (`optimistic_yield`) until the ISR refills the queue — in a
sequential model that loop never terminates, modelled as `none`; otherwise it
pops the next buffer (interrupts masked) and resets the cursor to offset 0.
Then the sample is written at the cursor and `true` is returned. -/
def i2s_write_sample (sample : Nat) (s : I2SState) : Option (Bool × I2SState) :=
  if s.buf_pos = SLC_BUF_LEN ∨ s.curr_buf = none then
    if s.queue.length = 0 then
      none
    else
      let p := i2s_slc_queue_next_item s
      some (true, writeCursor sample { p.2 with curr_buf := some p.1, buf_pos := 0 })
  else
    some (true, writeCursor sample s)

/-- The non-blocking writer `i2s_write_sample_nb`: identical to
`i2s_write_sample` except that an empty queue at the exhaustion point returns
`false` immediately, touching nothing. -/
def i2s_write_sample_nb (sample : Nat) (s : I2SState) : Bool × I2SState :=
  if s.buf_pos = SLC_BUF_LEN ∨ s.curr_buf = none then
    if s.queue.length = 0 then
      (false, s)
    else
      let p := i2s_slc_queue_next_item s
      (true, writeCursor sample { p.2 with curr_buf := some p.1, buf_pos := 0 })
  else
    (true, writeCursor sample s)

/-- The 32-bit word built by `i2s_write_lr`:
`int sample = right & 0xFFFF; sample = sample << 16; sample |= left & 0xFFFF;`.
`left` and `right` are `int16_t` promoted to `int`; masking a two's-complement
value with `0xFFFF` is `Int.emod` by `2 ^ 16`, and the resulting word is the
bit pattern handed to `i2s_write_sample`'s `uint32_t` parameter. -/
def i2s_write_lr_word (left right : Int) : Nat :=
  ((right.emod 65536).toNat <<< 16) ||| (left.emod 65536).toNat

/-- `i2s_write_lr`: pack the two 16-bit channels and delegate to the blocking
writer. -/
def i2s_write_lr (left right : Int) (s : I2SState) : Option (Bool × I2SState) :=
  i2s_write_sample (i2s_write_lr_word left right) s

/-- The state set up by `i2s_slc_begin` at session start: queue length reset
to 0 and every pool buffer zero-filled; the cursor statics are at their
program-start values (`NULL`, 0). -/
def initState : I2SState :=
  { queue := [], curr_buf := none, buf_pos := 0, mem := fun _ _ => 0 }

/-- The queue-mutating operations of the public API, as invoked on the shared
state: a completion interrupt for buffer `finished`, a blocking write, and a
non-blocking write. -/
inductive I2SOp where
  | isr (finished : Nat)
  | write (sample : Nat)
  | write_nb (sample : Nat)

/-- One step of the driver: apply an operation to the shared state.  A
blocking write facing an empty queue never returns in the sequential model
(`none`); the state it leaves behind while spinning is unchanged. -/
def stepOp (op : I2SOp) (s : I2SState) : I2SState :=
  match op with
  | .isr finished => i2s_slc_isr finished s
  | .write sample =>
      match i2s_write_sample sample s with
      | some p => p.2
      | none => s
  | .write_nb sample => (i2s_write_sample_nb sample s).2

/-- Run a sequence of operations from a starting state. -/
def runOps (ops : List I2SOp) (s : I2SState) : I2SState :=
  ops.foldl (fun t op => stepOp op t) s

/-! ## The uint8_t length counter in isolation

`i2s_slc_queue_len` is a `uint8_t`.  The following definitions model the
exact effect of each piece of code on that counter alone, with mod-256
wrap-around, so that the unguarded decrement in `i2s_slc_queue_next_item`
is visible. -/

/-- Counter effect of `i2s_slc_queue_next_item`: `i2s_slc_queue_len--` on a
`uint8_t`, i.e. subtraction of 1 mod 256, with no emptiness check. -/
def i2s_slc_queue_next_item_len (len : Nat) : Nat :=
  (len + 255) % 256

/-- Counter effect of the ISR's queue update: pop only when
`i2s_slc_queue_len >= SLC_BUF_CNT - 1`, then `i2s_slc_queue_len++`. -/
def i2s_slc_isr_len (len : Nat) : Nat :=
  let len2 := if SLC_BUF_CNT - 1 ≤ len then i2s_slc_queue_next_item_len len else len
  (len2 + 1) % 256

/-- Counter effect of the blocking writer's refill path: when
`i2s_slc_queue_len == 0` the writer spins (counter untouched until the ISR
runs); it reaches the pop only with a positive counter. -/
def i2s_write_sample_len (len : Nat) : Nat :=
  if len = 0 then len else i2s_slc_queue_next_item_len len

/-- Counter effect of the non-blocking writer's refill path: when
`i2s_slc_queue_len == 0` it returns `false` with the counter untouched;
otherwise it pops. -/
def i2s_write_sample_nb_len (len : Nat) : Nat :=
  if len = 0 then len else i2s_slc_queue_next_item_len len

/-! ## Rate state and the divider solver

`I2SBASEFREQ` and the divider field masks `I2SBDM`, `I2SCDM` come from the
SDK header `i2s_reg.h`, which is not part of this repository: the base
frequency is the ESP8266 I2S base clock of 160 MHz and both divider fields
are 6 bits wide (values 0..63), matching the spec's divider range [1, 63].

The C search compares IEEE-754 single-precision deltas
(`fabs(((float)scaled_base_freq/i/j) - rate)`); the embedding below replaces
that float arithmetic by exact rational arithmetic with the same control
structure.  No theorem in this file depends on the numeric outcome of the
search: the claims settled here concern the `rate == _i2s_sample_rate` guard
and the fields written, which are independent of the deltas. -/

/-- Base frequency of the I2S peripheral clock in Hz (from `i2s_reg.h`,
outside this repository). -/
def I2SBASEFREQ : Nat := 160000000

/-- Mask of the `I2SBD` divider bit field (6 bits, from `i2s_reg.h`). -/
def I2SBDM : Nat := 63

/-- Mask of the `I2SCD` divider bit field (6 bits, from `i2s_reg.h`). -/
def I2SCDM : Nat := 63

/-- The rate-related driver state: `_i2s_sample_rate` (the last requested
rate) and the two divider fields currently programmed in `I2SC`. -/
structure RateState where
  sample_rate : Nat
  div1 : Nat
  div2 : Nat
  deriving DecidableEq, Repr

/-- `i2s_set_dividers`: mask each divider to its bit field and program both
fields of `I2SC`; the rest of the register update does not touch this state. -/
def i2s_set_dividers (d1 d2 : Nat) (s : RateState) : RateState :=
  { s with div1 := d1 &&& I2SBDM, div2 := d2 &&& I2SCDM }

/-- The nested divider scan of `i2s_set_rate`: `i` from 1 to 63, `j` from `i`
to 63, tracking the pair with the strictly smallest `|scaled/i/j - rate|`
(first-found pair kept on ties), starting from `delta_best = scaled_base_freq`
and `(1, 1)`.  The C float arithmetic is modelled by exact rationals. -/
def rateDividerSearch (rate : Nat) : Nat × Nat :=
  let scaled : Nat := I2SBASEFREQ / 32
  let best : ℚ × Nat × Nat :=
    (List.range' 1 63).foldl (fun (acc : ℚ × Nat × Nat) (i : Nat) =>
      (List.range' i (64 - i)).foldl (fun (acc : ℚ × Nat × Nat) (j : Nat) =>
        let new_delta : ℚ := |(scaled : ℚ) / (i : ℚ) / (j : ℚ) - (rate : ℚ)|
        if new_delta < acc.1 then (new_delta, i, j) else acc) acc)
      ((scaled : ℚ), 1, 1)
  (best.2.1, best.2.2)

/-- `i2s_set_rate`: return immediately when the requested rate equals
`_i2s_sample_rate`; otherwise record the new rate, run the divider scan and
program the winning pair.  The boolean reports whether the hardware divider
registers were reprogrammed (`i2s_set_dividers` reached). -/
def i2s_set_rate (rate : Nat) (s : RateState) : RateState × Bool :=
  if rate = s.sample_rate then
    (s, false)
  else
    let best := rateDividerSearch rate
    (i2s_set_dividers best.1 best.2 { s with sample_rate := rate }, true)

/-! ## Helper lemmas -/

/-- The queue of a state after `writeCursor` is unchanged: writing a sample
only touches buffer memory and the cursor offset. -/
theorem writeCursor_queue (sample : Nat) (s : I2SState) :
    (writeCursor sample s).queue = s.queue := rfl

/-- Any single operation keeps the live queue length within
`[0, SLC_BUF_CNT - 1]`. -/
theorem stepOp_queue_length_le (op : I2SOp) (s : I2SState)
    (h : s.queue.length ≤ SLC_BUF_CNT - 1) :
    (stepOp op s).queue.length ≤ SLC_BUF_CNT - 1 := by
  cases op with
  | isr finished =>
      unfold stepOp i2s_slc_isr i2s_slc_queue_next_item
      dsimp only
      simp only [SLC_BUF_CNT] at h ⊢
      split <;> simp <;> omega
  | write sample =>
      unfold stepOp i2s_write_sample i2s_slc_queue_next_item
      dsimp only
      by_cases h1 : s.buf_pos = SLC_BUF_LEN ∨ s.curr_buf = none
      · rw [if_pos h1]
        by_cases h2 : s.queue.length = 0
        · rw [if_pos h2]
          exact h
        · rw [if_neg h2]
          dsimp only
          simp only [SLC_BUF_CNT, writeCursor_queue] at h ⊢
          simp
          omega
      · rw [if_neg h1]
        dsimp only
        simpa only [writeCursor_queue] using h
  | write_nb sample =>
      unfold stepOp i2s_write_sample_nb i2s_slc_queue_next_item
      dsimp only
      by_cases h1 : s.buf_pos = SLC_BUF_LEN ∨ s.curr_buf = none
      · rw [if_pos h1]
        by_cases h2 : s.queue.length = 0
        · rw [if_pos h2]
          exact h
        · rw [if_neg h2]
          dsimp only
          simp only [SLC_BUF_CNT, writeCursor_queue] at h ⊢
          simp
          omega
      · rw [if_neg h1]
        dsimp only
        simpa only [writeCursor_queue] using h

/-- Running any sequence of operations keeps the live queue length within
`[0, SLC_BUF_CNT - 1]`. -/
theorem runOps_queue_length_le (ops : List I2SOp) (s : I2SState)
    (h : s.queue.length ≤ SLC_BUF_CNT - 1) :
    (runOps ops s).queue.length ≤ SLC_BUF_CNT - 1 := by
  induction ops generalizing s with
  | nil => exact h
  | cons op rest ih => exact ih (stepOp op s) (stepOp_queue_length_le op s h)

/-! ## Claims -/

/-- Claim C1: the completion handler's push always enqueues the reclaimed
buffer identity (it becomes the newest entry) and never blocks or reports an
error; at capacity (`SLC_BUF_CNT - 1 = 7` live entries) it first evicts the
oldest queued identity and then appends, and below capacity it simply
appends. -/
theorem c1_isr_push_drop_oldest (s : I2SState) (finished : Nat) :
    (i2s_slc_isr finished s).queue.getLast? = some finished ∧
    (s.queue.length = SLC_BUF_CNT - 1 →
      (i2s_slc_isr finished s).queue = s.queue.tail ++ [finished]) ∧
    (s.queue.length < SLC_BUF_CNT - 1 →
      (i2s_slc_isr finished s).queue = s.queue ++ [finished]) := by
  unfold i2s_slc_isr i2s_slc_queue_next_item
  dsimp only
  refine ⟨?_, ?_, ?_⟩
  · split <;> exact List.getLast?_concat _
  · intro hfull
    rw [if_pos (by omega)]
  · intro hlt
    rw [if_neg (by omega)]

/-- Witness for C1 at a queue of 7 entries (capacity) and one of 2 entries:
the push evicts-then-appends in the first case and appends in the second. -/
theorem c1_isr_push_drop_oldest_witness :
    (i2s_slc_isr 9 ⟨[1, 2, 3, 4, 5, 6, 7], none, 0, fun _ _ => 0⟩).queue
      = [2, 3, 4, 5, 6, 7, 9] ∧
    (i2s_slc_isr 9 ⟨[1, 2], none, 0, fun _ _ => 0⟩).queue = [1, 2, 9] :=
  ⟨(c1_isr_push_drop_oldest ⟨[1, 2, 3, 4, 5, 6, 7], none, 0, fun _ _ => 0⟩ 9).2.1 rfl,
   (c1_isr_push_drop_oldest ⟨[1, 2], none, 0, fun _ _ => 0⟩ 9).2.2 (by decide)⟩

/-- Claim C2: starting from the empty queue set up at session start, no
sequence of queue operations (ISR pushes with eviction, blocking or
non-blocking producer writes with their pops) drives the hand-off queue
length outside `[0, SLC_BUF_CNT - 1] = [0, 7]`. -/
theorem c2_queue_length_invariant (ops : List I2SOp) :
    (runOps ops initState).queue.length ≤ SLC_BUF_CNT - 1 :=
  runOps_queue_length_le ops initState (by decide)

/-- Claim C3: on reclaiming a drained buffer, the completion handler
zero-fills all `SLC_BUF_LEN = 64` words of that buffer and pushes its
identity onto the hand-off queue (as the newest entry), so the buffer is
fully zeroed at the moment it is handed over. -/
theorem c3_isr_zero_fill (s : I2SState) (finished : Nat) (i : Nat)
    (h : i < SLC_BUF_LEN) :
    (i2s_slc_isr finished s).mem finished i = 0 ∧
    (i2s_slc_isr finished s).queue.getLast? = some finished := by
  unfold i2s_slc_isr i2s_slc_queue_next_item
  dsimp only
  constructor
  · split <;> simp [h]
  · split <;> exact List.getLast?_concat _

/-- Witness for C3: reclaiming buffer 3 in a state where buffer 3 held the
value 42 at word 5 leaves word 5 zeroed and buffer 3 enqueued last. -/
theorem c3_isr_zero_fill_witness :
    (i2s_slc_isr 3 ⟨[1], some 2, 0, fun _ _ => 42⟩).mem 3 5 = 0 ∧
    (i2s_slc_isr 3 ⟨[1], some 2, 0, fun _ _ => 42⟩).queue.getLast? = some 3 :=
  c3_isr_zero_fill ⟨[1], some 2, 0, fun _ _ => 42⟩ 3 5 (by decide)

/-- Claim C5: requesting the already-active rate is a no-op — `i2s_set_rate`
returns before the divider scan and before any hardware write, leaving the
rate state unchanged — and an immediate repetition of the same `i2s_set_rate`
call never reprograms the hardware the second time. -/
theorem c5_set_rate_idempotent (s : RateState) (r : Nat) :
    (r = s.sample_rate → i2s_set_rate r s = (s, false)) ∧
    (i2s_set_rate r (i2s_set_rate r s).1).2 = false := by
  constructor
  · intro h
    unfold i2s_set_rate
    rw [if_pos h]
  · unfold i2s_set_rate
    by_cases h : r = s.sample_rate
    · rw [if_pos h]
      dsimp only
      rw [if_pos h]
    · rw [if_neg h]
      dsimp only
      rw [if_pos (by simp [i2s_set_dividers])]

/-- Witness for C5 at the active rate 44100: the repeated call is a no-op and
the second of two identical calls does not reprogram the dividers. -/
theorem c5_set_rate_idempotent_witness :
    i2s_set_rate 44100 ⟨44100, 1, 1⟩ = (⟨44100, 1, 1⟩, false) ∧
    (i2s_set_rate 44100 (i2s_set_rate 44100 ⟨44100, 1, 1⟩).1).2 = false :=
  ⟨(c5_set_rate_idempotent ⟨44100, 1, 1⟩ 44100).1 rfl,
   (c5_set_rate_idempotent ⟨44100, 1, 1⟩ 44100).2⟩

/-- Counterexample for C6 as stated: at queue length 0 the pop primitive does
not fail with an `EmptyQueue` error — it decrements the `uint8_t` length
counter unconditionally, wrapping it from 0 to 255, far outside the legal
occupancy range `[0, SLC_BUF_CNT - 1]` (state corruption, not an error
return). -/
theorem c6_pop_empty_counterexample :
    i2s_slc_queue_next_item_len 0 = 255 ∧
    SLC_BUF_CNT - 1 < i2s_slc_queue_next_item_len 0 := by
  constructor <;> decide

/-- Claim C6 (amended): `i2s_slc_queue_next_item` removes and returns the
oldest entry when the length is positive; when the length is 0 it does not
fail with an error — it still decrements the `uint8_t` length counter,
wrapping it to 255, so callers must establish a positive length before
calling it. -/
theorem c6_pop_oldest_amended (s : I2SState) (len : Nat) (hq : s.queue ≠ [])
    (hpos : 0 < len) (hle : len ≤ 255) :
    (i2s_slc_queue_next_item s).1 = s.queue.head hq ∧
    (i2s_slc_queue_next_item s).2.queue = s.queue.tail ∧
    i2s_slc_queue_next_item_len len = len - 1 ∧
    i2s_slc_queue_next_item_len 0 = 255 := by
  obtain ⟨q, cb, bp, m⟩ := s
  refine ⟨?_, rfl, ?_, by decide⟩
  · cases q with
    | nil => exact absurd rfl hq
    | cons a t => rfl
  · unfold i2s_slc_queue_next_item_len
    omega

/-- Witness for C6 (amended) on the one-entry queue `[5]` with counter 1:
the pop returns 5, leaves the empty queue, and the counter drops to 0. -/
theorem c6_pop_oldest_amended_witness :
    (i2s_slc_queue_next_item ⟨[5], none, 0, fun _ _ => 0⟩).1 = 5 ∧
    (i2s_slc_queue_next_item ⟨[5], none, 0, fun _ _ => 0⟩).2.queue = [] ∧
    i2s_slc_queue_next_item_len 1 = 0 ∧
    i2s_slc_queue_next_item_len 0 = 255 :=
  c6_pop_oldest_amended ⟨[5], none, 0, fun _ _ => 0⟩ 1 (by simp) (by decide) (by decide)

/-- Claim C7: when the write cursor is exhausted (`buf_pos = SLC_BUF_LEN`) or
has no current buffer, and the hand-off queue is empty, `i2s_write_sample_nb`
returns `false` and leaves the entire state — queue, cursor and all buffer
contents — unchanged. -/
theorem c7_write_nb_empty_noop (s : I2SState) (sample : Nat)
    (hcur : s.buf_pos = SLC_BUF_LEN ∨ s.curr_buf = none)
    (hq : s.queue.length = 0) :
    i2s_write_sample_nb sample s = (false, s) := by
  unfold i2s_write_sample_nb
  rw [if_pos hcur, if_pos hq]

/-- Witness for C7: a write with no current buffer and the empty queue
returns `false` and the state untouched. -/
theorem c7_write_nb_empty_noop_witness :
    i2s_write_sample_nb 7 ⟨[], none, 3, fun _ _ => 0⟩
      = (false, ⟨[], none, 3, fun _ _ => 0⟩) :=
  c7_write_nb_empty_noop ⟨[], none, 3, fun _ _ => 0⟩ 7 (Or.inr rfl) rfl

/-- Claim C8: for all 16-bit inputs (indeed for all integers, through their
low 16 bits), `i2s_write_lr` packs `right` into bits 16–31 and `left` into
bits 0–15 of the single 32-bit word passed to the blocking writer; in
particular `left = 0x1234`, `right = 0x5678` yields `0x56781234`. -/
theorem c8_write_lr_packing (left right : Int) :
    i2s_write_lr_word left right / 65536 = (right.emod 65536).toNat ∧
    i2s_write_lr_word left right % 65536 = (left.emod 65536).toNat ∧
    i2s_write_lr_word 0x1234 0x5678 = 0x56781234 := by
  have hlo : (left.emod 65536).toNat < 65536 := by
    have h1 : 0 ≤ left.emod 65536 := Int.emod_nonneg left (by norm_num)
    have h2 : left.emod 65536 < 65536 := Int.emod_lt_of_pos left (by norm_num)
    omega
  have key : i2s_write_lr_word left right
      = (right.emod 65536).toNat * 65536 + (left.emod 65536).toNat := by
    unfold i2s_write_lr_word
    rw [Nat.shiftLeft_eq]
    norm_num
    rw [Nat.mul_comm]
    exact (Nat.mul_add_lt_is_or (i := 16) (by omega) _).symm
  refine ⟨?_, ?_, by decide⟩
  · rw [key]
    omega
  · rw [key]
    omega

/-- Claim C9: `i2s_is_empty` is `true` in every state where the queue holds
`SLC_BUF_CNT - 1 = 7` live entries, and `false` in every state where it
holds fewer. -/
theorem c9_is_empty_at_capacity (s : I2SState) :
    (s.queue.length = SLC_BUF_CNT - 1 → i2s_is_empty s = true) ∧
    (s.queue.length < SLC_BUF_CNT - 1 → i2s_is_empty s = false) := by
  unfold i2s_is_empty
  constructor <;> intro h <;> simp [SLC_BUF_CNT] at h ⊢ <;> omega

/-- Witness for C9 at a 7-entry queue (`true`) and a 3-entry queue
(`false`). -/
theorem c9_is_empty_at_capacity_witness :
    i2s_is_empty ⟨[1, 2, 3, 4, 5, 6, 7], none, 0, fun _ _ => 0⟩ = true ∧
    i2s_is_empty ⟨[1, 2, 3], none, 0, fun _ _ => 0⟩ = false :=
  ⟨(c9_is_empty_at_capacity ⟨[1, 2, 3, 4, 5, 6, 7], none, 0, fun _ _ => 0⟩).1 rfl,
   (c9_is_empty_at_capacity ⟨[1, 2, 3], none, 0, fun _ _ => 0⟩).2 (by decide)⟩

/-- Claim C10: the raw pop primitive decrements the `uint8_t` length counter
without an emptiness check — at counter 0 it would wrap to 255 — but each
call site in the module (the ISR's eviction path, the blocking writer and the
non-blocking writer) pops only after establishing a positive length, so from
any legal occupancy in `[0, SLC_BUF_CNT - 1]` every public operation keeps
the counter in `[0, SLC_BUF_CNT - 1]`: it never underflows. -/
theorem c10_no_counter_underflow (len : Nat) (h : len ≤ SLC_BUF_CNT - 1) :
    i2s_slc_queue_next_item_len 0 = 255 ∧
    i2s_slc_isr_len len ≤ SLC_BUF_CNT - 1 ∧
    i2s_write_sample_len len ≤ SLC_BUF_CNT - 1 ∧
    i2s_write_sample_nb_len len ≤ SLC_BUF_CNT - 1 := by
  simp only [SLC_BUF_CNT] at h
  refine ⟨by decide, ?_, ?_, ?_⟩ <;>
    simp only [i2s_slc_isr_len, i2s_write_sample_len, i2s_write_sample_nb_len,
      i2s_slc_queue_next_item_len, SLC_BUF_CNT] <;>
    split <;> omega

/-- Witness for C10 at the capacity counter value 7: the ISR and both
writers keep the counter within `[0, 7]`. -/
theorem c10_no_counter_underflow_witness :
    i2s_slc_queue_next_item_len 0 = 255 ∧
    i2s_slc_isr_len 7 ≤ SLC_BUF_CNT - 1 ∧
    i2s_write_sample_len 7 ≤ SLC_BUF_CNT - 1 ∧
    i2s_write_sample_nb_len 7 ≤ SLC_BUF_CNT - 1 :=
  c10_no_counter_underflow 7 (by decide)
